import Mathlib

/-!
# Verification of the visitor-to-lead enrichment pipeline (src/main.py)

Shallow embedding of the Swan backend pipeline. External HTTP calls are
modelled as oracle parameters: each resolver function receives the value the
network call would produce (an `Option` whose `none` case is any non-2xx
response, transport exception or parse failure) and applies the same
short-circuits and post-processing as the Python source. The SQLite database
is modelled as explicit lists of rows plus autoincrement counters, and the
`INSERT OR REPLACE` / `INSERT OR IGNORE` statements are modelled against the
uniqueness constraints actually declared by `init_db`.
-/

/-! ## Python string primitives

The source manipulates ASCII strings with `str.lower`, `str.replace`,
`str.split`, slicing and `str.strip`. These are re-implemented over the
character list of a `String` with structural (fuel-based) recursion so that
concrete evaluation happens inside the kernel.
-/

/-- Python truthiness choice `a or b` on strings: `b` when `a` is empty. -/
def pyOr (a b : String) : String := if a = "" then b else a

/-- `pat` begins the character list `s`. -/
def listStartsWith : List Char → List Char → Bool
  | [], _ => true
  | _ :: _, [] => false
  | p :: ps, c :: cs => p == c && listStartsWith ps cs

/-- Fuel-driven worker for left-to-right, non-overlapping replacement. -/
def replaceAllAux (pat rep : List Char) : Nat → List Char → List Char
  | _, [] => []
  | 0, s => s
  | fuel + 1, c :: rest =>
    if pat ≠ [] ∧ listStartsWith pat (c :: rest) then
      rep ++ replaceAllAux pat rep fuel ((c :: rest).drop pat.length)
    else
      c :: replaceAllAux pat rep fuel rest

/-- Python `s.replace(pat, rep)` for a non-empty pattern. -/
def replaceAll (s pat rep : String) : String :=
  ⟨replaceAllAux pat.data rep.data s.data.length s.data⟩

/-- Python `s.lower()` (ASCII inputs). -/
def pyLower (s : String) : String := ⟨s.data.map Char.toLower⟩

/-- Python slice `s[:n]`. -/
def pyTake (s : String) (n : Nat) : String := ⟨s.data.take n⟩

/-- Python `s.strip()`. -/
def pyStrip (s : String) : String :=
  ⟨((s.data.dropWhile Char.isWhitespace).reverse.dropWhile Char.isWhitespace).reverse⟩

/-- Worker for splitting on a single character. -/
def splitOnCharAux (sep : Char) (acc : List Char) : List Char → List (List Char)
  | [] => [acc.reverse]
  | c :: rest =>
    if c == sep then acc.reverse :: splitOnCharAux sep [] rest
    else splitOnCharAux sep (c :: acc) rest

/-- Python `s.split(sep)` for a one-character separator. -/
def pySplit (s : String) (sep : Char) : List String :=
  (splitOnCharAux sep [] s.data).map (⟨·⟩)

/-- Join pieces back with a one-character separator. -/
def joinWith (sep : Char) : List String → String
  | [] => ""
  | [x] => x
  | x :: xs => x ++ ⟨[sep]⟩ ++ joinWith sep xs

/-- Python `s.split(sep, 1)`: at most one split, remainder re-joined. -/
def pySplit1 (s : String) (sep : Char) : List String :=
  match pySplit s sep with
  | [] => []
  | [x] => [x]
  | x :: rest => [x, joinWith sep rest]

/-- Python `d.get(k, "")` over a string-keyed payload dictionary. -/
def dictGet (d : List (String × String)) (k : String) : String :=
  match d.find? (fun p => p.1 == k) with
  | some p => p.2
  | none => ""

/-! ## Data model

Structures mirror the Pydantic model and the payload dictionaries built by
the resolvers in src/main.py. Optional dictionary keys (present in the Apollo
payload but absent from the shell dictionaries built at lines 400 and 466)
are `Option` fields defaulting to `none`; `dict.get` on them yields SQL NULL,
modelled as `none` in the corresponding row column.
-/

/-- The `VisitorData` Pydantic model (src/main.py lines 51-62). A `None`
`ip_address` and the empty string behave identically everywhere it is used
(only through Python truthiness), so both are modelled as `""`. -/
structure VisitorData where
  project_id : String := ""
  session_id : String
  ip_address : String := ""
  current_url : String := ""
  referrer : String := ""
  pages_viewed : List String := []
  visit_duration : Int := 0
  user_agent : String := ""
deriving DecidableEq

/-- The company payload dictionary: keys always present in both the shell
dictionaries and the Apollo result come first; keys only the Apollo result
(lines 247-259) supplies are `Option`s. -/
structure CompanyPayload where
  name : String
  domain : String
  industry : String
  employee_count : Int
  country : String
  city : Option String := none
  description : Option String := none
  funding_stage : Option String := none
  total_funding : Option Int := none
  annual_revenue : Option Int := none
  linkedin_url : Option String := none
deriving DecidableEq

/-- One contact dictionary as built from the Hunter response (lines 280-288). -/
structure ContactPayload where
  name : String
  email : String
  title : String
  department : String
  seniority : String
  linkedin_url : String
  confidence : Int
deriving DecidableEq

/-- The structured scoring record (OpenAI response contract, lines 336-347,
and the two literal default dictionaries at lines 416-420 and 490-496).
`email_draft` is a JSON object modelled as a key-value list; the empty
draft `{}` is `[]`. -/
structure Scoring where
  icp_score : Int
  tier : String
  match_reasons : List String
  intent_signals : List String
  recommended_action : String
  urgency : String
  research_summary : String
  talking_points : List String
  email_draft : List (String × String)
deriving DecidableEq

/-- Person dictionary (lines 482-487); the tracking pathway passes `{}`,
modelled by all-empty fields. -/
structure PersonData where
  name : String := ""
  email : String := ""
  title : String := ""
  linkedin : String := ""
deriving DecidableEq

/-- Successful IPinfo lookup payload assembled at lines 208-219. -/
structure IpData where
  ip : String
  company_name : String
  domain : String
  city : String
  region : String
  country : String
  org : String
deriving DecidableEq

/-- Raw fields of the IPinfo HTTP response the code reads (lines 192, 214-216). -/
structure IpInfoData where
  org : String := ""
  city : String := ""
  region : String := ""
  country : String := ""
deriving DecidableEq

/-! ## Database rows and state (schema from `init_db`, lines 66-173) -/

/-- A row of the `visitors` table. -/
structure VisitorRow where
  id : Nat
  session_id : String
  ip_address : String
  pages_viewed : List String
  visit_duration : Int
  referrer : String
  user_agent : String
deriving DecidableEq

/-- A row of the `companies` table. `enriched_data` stores
`json.dumps(company)`, modelled as the serialized payload itself. -/
structure CompanyRow where
  id : Nat
  domain : String
  name : String
  industry : String
  employee_count : Int
  country : String
  city : Option String
  description : Option String
  funding_stage : Option String
  total_funding : Int
  annual_revenue : Int
  linkedin_url : Option String
  enriched_data : CompanyPayload
deriving DecidableEq

/-- A row of the `contacts` table. Schema constraints: only the rowid
primary key `id` (autoincrement); there is no UNIQUE constraint over any
data column (lines 103-116). -/
structure ContactRow where
  id : Nat
  company_id : Option Nat
  name : String
  email : String
  title : String
  seniority : String
  department : String
  linkedin_url : String
  confidence : Int
deriving DecidableEq

/-- A row of the `leads` table. `status` is not in any INSERT column list,
so the schema default `new` always applies. -/
structure LeadRow where
  id : Nat
  lead_id : String
  company_id : Option Nat
  session_id : String
  ip_address : String
  identified_company : String
  pages_viewed : List String
  visit_duration : Int
  referrer : String
  icp_score : Int
  tier : String
  match_reasons : List String
  intent_signals : List String
  research_summary : String
  talking_points : List String
  email_draft : List (String × String)
  recommended_action : String
  urgency : String
  status : String
  source : String
  person_name : String
  person_email : String
  person_title : String
  person_linkedin : String
deriving DecidableEq

/-- The SQLite database: one list of rows per table plus the next
autoincrement rowid of each (AUTOINCREMENT never reuses ids). -/
structure DB where
  visitors : List VisitorRow
  companies : List CompanyRow
  contacts : List ContactRow
  leads : List LeadRow
  nextVisitorId : Nat
  nextCompanyId : Nat
  nextContactId : Nat
  nextLeadId : Nat
deriving DecidableEq

/-- The freshly initialized database: empty tables, rowids start at 1. -/
def emptyDB : DB :=
  { visitors := [], companies := [], contacts := [], leads := [],
    nextVisitorId := 1, nextCompanyId := 1, nextContactId := 1, nextLeadId := 1 }

/-- Environment-derived configuration (`get_settings`, lines 33-47). The
`icp_config` block only feeds the scoring prompt text, which the scoring
oracle subsumes, so it is not represented. -/
structure Settings where
  apollo_api_key : String := ""
  hunter_api_key : String := ""
  openai_api_key : String := ""
  ipinfo_token : String := ""
  slack_webhook_url : String := ""
deriving DecidableEq

/-! ## External resolvers (src/main.py lines 177-371)

Each resolver takes the outcome of its network call as an oracle argument
(`none` = non-2xx / exception / empty organization) and reproduces the
short-circuit checks of the source exactly.
-/

/-- Company-name extraction from the vendor `org` string (lines 193-197):
`parts = org.split(" ", 1); company_name = parts[1] if len(parts) > 1 else org`,
guarded by `if org:`. -/
def orgCompanyName (org : String) : String :=
  if org ≠ "" then
    let parts := pySplit1 org ' '
    if parts.length > 1 then parts.getD 1 "" else org
  else ""

/-- The legal-suffix list stripped by the domain guess (line 203). -/
def legalSuffixes : List String :=
  ["inc", "llc", "ltd", "corp", "corporation", "pvt", "private", "limited"]

/-- Heuristic domain guess (lines 199-206): lower-case, delete spaces,
commas and periods, delete each legal-suffix substring in order, and when
more than two characters remain, keep the first 20 and append `.com`. -/
def guessDomain (company_name : String) : String :=
  if company_name ≠ "" then
    let clean :=
      replaceAll (replaceAll (replaceAll (pyLower company_name) " " "") "," "") "." ""
    let clean := legalSuffixes.foldl (fun s suf => replaceAll s suf "") clean
    if clean.data.length > 2 then pyTake clean 20 ++ ".com" else ""
  else ""

/-- `lookup_company_from_ip` (lines 177-222). Loopback/empty addresses
short-circuit to failure before the network call; on a 200 response the
payload is assembled from the vendor data. -/
def lookup_company_from_ip (ip : String) (_token : String)
    (httpResult : Option IpInfoData) : Option IpData :=
  if ip = "" ∨ ip = "127.0.0.1" ∨ ip = "localhost" ∨ ip = "::1" then none
  else
    match httpResult with
    | none => none
    | some data =>
      let company_name := orgCompanyName data.org
      some { ip := ip, company_name := company_name,
             domain := guessDomain company_name,
             city := data.city, region := data.region, country := data.country,
             org := data.org }

/-- `enrich_company_apollo` (lines 226-263): missing key or domain
short-circuits to failure; otherwise the call outcome decides. -/
def enrich_company_apollo (domain api_key : String)
    (callResult : Option CompanyPayload) : Option CompanyPayload :=
  if api_key = "" ∨ domain = "" then none else callResult

/-- `find_contacts_hunter` (lines 265-292): missing key or domain yields
failure-with-empty-list, identical to any call failure for the caller. -/
def find_contacts_hunter (domain api_key : String)
    (callResult : Option (List ContactPayload)) : Option (List ContactPayload) :=
  if api_key = "" ∨ domain = "" then none else callResult

/-- `score_lead_openai` (lines 294-371): missing key short-circuits to
failure without a call; otherwise the call/parse outcome decides. The prompt
text and the JSON parse live inside the oracle. -/
def score_lead_openai (api_key : String) (callResult : Option Scoring) :
    Option Scoring :=
  if api_key = "" then none else callResult

/-! ## Persistence adapter (lines 521-607) -/

/-- Build a `companies` row from a payload as the shared
`INSERT OR REPLACE INTO companies (domain, name, industry, employee_count,
country, city, description, funding_stage, total_funding, linkedin_url,
enriched_data) VALUES (...)` statement does (lines 529-534 and 579-584).
`annual_revenue` is not in the column list, so the schema default 0 applies
(init_db line 96); `total_funding` uses `dict.get` with default 0;
`enriched_data` stores `json.dumps(company)`. -/
def mkCompanyRow (id : Nat) (p : CompanyPayload) : CompanyRow :=
  { id := id, domain := p.domain, name := p.name, industry := p.industry,
    employee_count := p.employee_count, country := p.country,
    city := p.city, description := p.description,
    funding_stage := p.funding_stage,
    total_funding := p.total_funding.getD 0,
    annual_revenue := 0,
    linkedin_url := p.linkedin_url,
    enriched_data := p }

/-- SQLite `INSERT OR REPLACE` into `companies`: rows conflicting on the
UNIQUE `domain` column are deleted, then the new row is inserted with a
fresh autoincrement rowid (the `id` column is not supplied). -/
def insertOrReplaceCompany (db : DB) (p : CompanyPayload) : DB :=
  { db with
    companies :=
      db.companies.filter (fun r => r.domain != p.domain)
        ++ [mkCompanyRow db.nextCompanyId p],
    nextCompanyId := db.nextCompanyId + 1 }

/-- Build a `contacts` row as the `INSERT OR IGNORE INTO contacts` statement
does (lines 541-545 and 588-592). -/
def mkContactRow (id : Nat) (company_id : Option Nat) (c : ContactPayload) :
    ContactRow :=
  { id := id, company_id := company_id, name := c.name, email := c.email,
    title := c.title, seniority := c.seniority, department := c.department,
    linkedin_url := c.linkedin_url, confidence := c.confidence }

/-- SQLite `INSERT OR IGNORE` into `contacts`: the insert is skipped exactly
when the new row would violate a uniqueness constraint. The only such
constraint in the schema is the rowid primary key `id`, which is freshly
assigned, so the conflict test mirrors precisely that. -/
def insertOrIgnoreContact (db : DB) (company_id : Option Nat)
    (c : ContactPayload) : DB :=
  let newRow := mkContactRow db.nextContactId company_id c
  if db.contacts.any (fun r => r.id == newRow.id) then db
  else { db with contacts := db.contacts ++ [newRow],
                 nextContactId := db.nextContactId + 1 }

/-- The `for c in contacts` insert loop shared by both save functions. -/
def insertContacts (company_id : Option Nat) (cts : List ContactPayload)
    (db : DB) : DB :=
  cts.foldl (fun d c => insertOrIgnoreContact d company_id c) db

/-- The company/contacts block shared by `save_lead` and `save_rb2b_lead`
(lines 527-545 and 576-592): guarded by `if company.get("domain")`; the
resulting `company_id` is the fresh rowid of the replaced company row
(`cursor.lastrowid` in `save_lead`, `SELECT id ... WHERE domain` in
`save_rb2b_lead` — both name the row just inserted). -/
def companyContactsStep (company : CompanyPayload)
    (contacts : List ContactPayload) (db : DB) : DB × Option Nat :=
  if company.domain ≠ "" then
    (insertContacts (some db.nextCompanyId) contacts
       (insertOrReplaceCompany db company),
     some db.nextCompanyId)
  else (db, none)

/-- The `leads` row written by `save_lead` (lines 595-604). -/
def trackingLeadRow (id : Nat) (lead_id : String) (company_id : Option Nat)
    (visitor : VisitorData) (scoring : Scoring)
    (ip identified source : String) (person : PersonData) : LeadRow :=
  { id := id, lead_id := lead_id, company_id := company_id,
    session_id := visitor.session_id, ip_address := ip,
    identified_company := identified, pages_viewed := visitor.pages_viewed,
    visit_duration := visitor.visit_duration, referrer := visitor.referrer,
    icp_score := scoring.icp_score, tier := scoring.tier,
    match_reasons := scoring.match_reasons,
    intent_signals := scoring.intent_signals,
    research_summary := scoring.research_summary,
    talking_points := scoring.talking_points,
    email_draft := scoring.email_draft,
    recommended_action := scoring.recommended_action,
    urgency := scoring.urgency, status := "new", source := source,
    person_name := person.name, person_email := person.email,
    person_title := person.title, person_linkedin := person.linkedin }

/-- The `leads` row written by `save_rb2b_lead` (lines 548-557): empty
session/ip/visit context, `identified_company` from the company payload,
source tag `rb2b`. -/
def rb2bLeadRow (id : Nat) (lead_id : String) (company_id : Option Nat)
    (company : CompanyPayload) (scoring : Scoring) (person : PersonData) :
    LeadRow :=
  { id := id, lead_id := lead_id, company_id := company_id,
    session_id := "", ip_address := "",
    identified_company := company.name, pages_viewed := [],
    visit_duration := 0, referrer := "",
    icp_score := scoring.icp_score, tier := scoring.tier,
    match_reasons := scoring.match_reasons,
    intent_signals := scoring.intent_signals,
    research_summary := scoring.research_summary,
    talking_points := scoring.talking_points,
    email_draft := scoring.email_draft,
    recommended_action := scoring.recommended_action,
    urgency := scoring.urgency, status := "new", source := "rb2b",
    person_name := person.name, person_email := person.email,
    person_title := person.title, person_linkedin := person.linkedin }

/-- `save_visitor` (lines 562-570): plain INSERT into `visitors`. -/
def save_visitor (visitor : VisitorData) (ip : String) (db : DB) : DB :=
  { db with
    visitors := db.visitors ++
      [{ id := db.nextVisitorId, session_id := visitor.session_id,
         ip_address := ip, pages_viewed := visitor.pages_viewed,
         visit_duration := visitor.visit_duration,
         referrer := visitor.referrer, user_agent := visitor.user_agent }],
    nextVisitorId := db.nextVisitorId + 1 }

/-- Successful body of `save_lead`: company/contacts block, then the plain
lead INSERT. -/
def saveLeadCore (lead_id : String) (company : CompanyPayload)
    (contacts : List ContactPayload) (visitor : VisitorData)
    (scoring : Scoring) (ip identified source : String) (person : PersonData)
    (db : DB) : DB :=
  let step := companyContactsStep company contacts db
  { step.1 with
    leads := step.1.leads ++
      [trackingLeadRow step.1.nextLeadId lead_id step.2 visitor scoring ip
        identified source person],
    nextLeadId := step.1.nextLeadId + 1 }

/-- `save_lead` (lines 572-607). The plain `INSERT INTO leads` aborts on a
`lead_id` UNIQUE violation; the single commit at the end then never runs, so
the whole call leaves the database unchanged and the error propagates. -/
def save_lead (lead_id : String) (company : CompanyPayload)
    (contacts : List ContactPayload) (visitor : VisitorData)
    (scoring : Scoring) (ip identified source : String) (person : PersonData)
    (db : DB) : Except String DB :=
  if db.leads.any (fun r => r.lead_id == lead_id) then
    Except.error "UNIQUE constraint failed: leads.lead_id"
  else
    Except.ok (saveLeadCore lead_id company contacts visitor scoring ip
      identified source person db)

/-- Successful body of `save_rb2b_lead`. -/
def saveRb2bLeadCore (lead_id : String) (company : CompanyPayload)
    (contacts : List ContactPayload) (scoring : Scoring) (person : PersonData)
    (db : DB) : DB :=
  let step := companyContactsStep company contacts db
  { step.1 with
    leads := step.1.leads ++
      [rb2bLeadRow step.1.nextLeadId lead_id step.2 company scoring person],
    nextLeadId := step.1.nextLeadId + 1 }

/-- `save_rb2b_lead` (lines 521-560), with the same UNIQUE-abort behaviour
on `lead_id` as `save_lead`. -/
def save_rb2b_lead (lead_id : String) (company : CompanyPayload)
    (contacts : List ContactPayload) (scoring : Scoring) (person : PersonData)
    (db : DB) : Except String DB :=
  if db.leads.any (fun r => r.lead_id == lead_id) then
    Except.error "UNIQUE constraint failed: leads.lead_id"
  else
    Except.ok (saveRb2bLeadCore lead_id company contacts scoring person db)

/-! ## Notifier (`send_slack_alert`, lines 609-626) -/

/-- Person block of the alert message (lines 611-613), present only when
the person dictionary carries a name. -/
def slackPersonInfo (person : PersonData) : String :=
  if person.name ≠ "" then
    "\n*Person:* " ++ person.name ++ " - " ++ person.title ++
      "\n*Email:* " ++ person.email
  else ""

/-- The alert message text (lines 615-621), flattened. -/
def slackMessage (company : CompanyPayload) (scoring : Scoring)
    (person : PersonData) : String :=
  "🔥 HOT LEAD: " ++ company.name ++
    "\n*Score:* " ++ toString scoring.icp_score ++ "/100 | *Industry:* " ++
    company.industry ++ slackPersonInfo person ++
    "\n*Summary:* " ++ scoring.research_summary

/-- `send_slack_alert`: the webhook POST outcome is an oracle; the
`try/except: pass` swallows any failure, so the function always completes. -/
def send_slack_alert (company : CompanyPayload) (scoring : Scoring)
    (_ip : String) (person : PersonData) (_webhook_url : String)
    (postOutcome : Except String Unit) : Except String Unit :=
  let _message := slackMessage company scoring person
  match postOutcome with
  | Except.ok _ => Except.ok ()
  | Except.error _ => Except.ok ()

/-! ## Scoring defaults and the RB2B bonus -/

/-- Default scoring record of the tracking pathway (lines 416-420). -/
def defaultTrackingScoring (identified ip : String) : Scoring :=
  { icp_score := 30, tier := "cold", match_reasons := [],
    intent_signals := [], recommended_action := "skip", urgency := "low",
    research_summary := "Visitor from " ++ pyOr identified ip,
    talking_points := [], email_draft := [] }

/-- Default scoring record of the RB2B pathway (lines 490-496). -/
def defaultRb2bScoring (full_name first_name title company_name : String) :
    Scoring :=
  { icp_score := 60, tier := "warm",
    match_reasons := ["Person identified via RB2B"],
    intent_signals := ["Visited website"],
    recommended_action := "send_email", urgency := "medium",
    research_summary := full_name ++ " from " ++ company_name ++
      " visited the website.",
    talking_points := ["Visited your website", "Works as " ++ title],
    email_draft := [("subject", "Following up on your visit"),
                    ("body", "Hi " ++ first_name ++
                      ", I noticed you visited our website...")] }

/-- The person-identification bonus (lines 503-508): add 15 capped at 100,
then re-derive the tier from the bonused score, keeping the engine tier when
below 50. -/
def applyRb2bBonus (s : Scoring) : Scoring :=
  let score := min 100 (s.icp_score + 15)
  let tier := if score ≥ 70 then "hot" else if score ≥ 50 then "warm" else s.tier
  { s with icp_score := score, tier := tier }

/-! ## Pipeline stages shared between the entry points -/

/-- Company chosen after the Apollo step (lines 399-405 / 465-471): the
shell unless the key and domain are set and the call succeeds, in which case
the Apollo data replaces the shell entirely. -/
def resolvedCompany (shell : CompanyPayload) (domain apollo_key : String)
    (apolloHttp : Option CompanyPayload) : CompanyPayload :=
  if domain ≠ "" ∧ apollo_key ≠ "" then
    match enrich_company_apollo domain apollo_key apolloHttp with
    | some data => data
    | none => shell
  else shell

/-- Contact list after the Hunter step (lines 407-413 / 473-479): empty
unless the key and domain are set and the call succeeds. -/
def resolvedContacts (domain hunter_key : String)
    (hunterHttp : Option (List ContactPayload)) : List ContactPayload :=
  if domain ≠ "" ∧ hunter_key ≠ "" then
    match find_contacts_hunter domain hunter_key hunterHttp with
    | some cs => cs
    | none => []
  else []

/-! ## Anonymous tracking pathway (`process_visitor`, lines 375-437) -/

/-- `ip = visitor.ip_address or client_ip or ""` (line 378). -/
def effectiveIp (visitor : VisitorData) (client_ip : String) : String :=
  pyOr visitor.ip_address client_ip

/-- The local-traffic check `if not ip or ip in ["127.0.0.1", "::1",
"localhost"]` (line 386). -/
def isLocalIp (ip : String) : Bool :=
  ip == "" || ip == "127.0.0.1" || ip == "::1" || ip == "localhost"

/-- Lead identifier of the tracking pathway (line 390), with the timestamp
supplied as a parameter. -/
def trackingLeadId (now : Nat) (session_id : String) : String :=
  "lead_" ++ toString now ++ "_" ++ pyTake session_id 8

/-- `identified` after the IP lookup (line 394). -/
def visitorIdentified (token ip : String) (ipHttp : Option IpInfoData) :
    String :=
  ((lookup_company_from_ip ip token ipHttp).map IpData.company_name).getD ""

/-- `domain` after the IP lookup (line 395). -/
def visitorDomain (token ip : String) (ipHttp : Option IpInfoData) : String :=
  ((lookup_company_from_ip ip token ipHttp).map IpData.domain).getD ""

/-- The company shell of the tracking pathway (line 400); the country is
read from the lookup payload independently of the success flag. -/
def trackingShell (identified domain : String) (ipResult : Option IpData) :
    CompanyPayload :=
  { name := pyOr identified "Unknown", domain := domain,
    industry := "Unknown", employee_count := 0,
    country := (ipResult.map IpData.country).getD "" }

/-- Scoring of the tracking pathway (lines 416-428): the engine runs only
when a key is configured and an identification name was resolved, and only
a successful engine result replaces the default. -/
def visitorScoring (settings : Settings) (identified ip : String)
    (openaiHttp : Option Scoring) : Scoring :=
  if settings.openai_api_key ≠ "" ∧ identified ≠ "" then
    match score_lead_openai settings.openai_api_key openaiHttp with
    | some s => s
    | none => defaultTrackingScoring identified ip
  else defaultTrackingScoring identified ip

/-- Result of one background pipeline run: the database afterwards, the
number of outbound alert calls made, and the value the task returned. -/
structure RunOut where
  db : DB
  alerts : Nat
  ret : Option String
deriving DecidableEq

/-- `process_visitor` (lines 375-437). Oracles: `ipHttp` is the IPinfo
response, `apolloHttp`/`hunterHttp`/`openaiHttp` the enrichment call
outcomes, `alertPost` the webhook POST outcome, `now` the timestamp used in
the lead identifier. -/
def process_visitor (settings : Settings) (visitor : VisitorData)
    (client_ip : String) (now : Nat) (ipHttp : Option IpInfoData)
    (apolloHttp : Option CompanyPayload)
    (hunterHttp : Option (List ContactPayload)) (openaiHttp : Option Scoring)
    (alertPost : Except String Unit) (db : DB) : Except String RunOut :=
  let ip := effectiveIp visitor client_ip
  let db1 := save_visitor visitor ip db
  if isLocalIp ip then Except.ok ⟨db1, 0, none⟩
  else
    let lead_id := trackingLeadId now visitor.session_id
    let ipResult := lookup_company_from_ip ip settings.ipinfo_token ipHttp
    let identified := visitorIdentified settings.ipinfo_token ip ipHttp
    let domain := visitorDomain settings.ipinfo_token ip ipHttp
    let company := resolvedCompany (trackingShell identified domain ipResult)
      domain settings.apollo_api_key apolloHttp
    let contacts := resolvedContacts domain settings.hunter_api_key hunterHttp
    let scoring := visitorScoring settings identified ip openaiHttp
    match save_lead lead_id company contacts visitor scoring ip identified
        "tracking" {} db1 with
    | Except.error e => Except.error e
    | Except.ok db2 =>
      if settings.slack_webhook_url ≠ "" ∧ scoring.tier = "hot" then
        match send_slack_alert company scoring ip {}
            settings.slack_webhook_url alertPost with
        | Except.error e => Except.error e
        | Except.ok _ => Except.ok ⟨db2, 1, none⟩
      else Except.ok ⟨db2, 0, none⟩

/-! ## Identified-person pathway (`process_rb2b_lead`, lines 441-519) -/

/-- Email extraction with header-style and snake-case key aliases
(line 446). -/
def rb2bEmail (d : List (String × String)) : String :=
  pyOr (dictGet d "Email") (dictGet d "email")

/-- First-name extraction (line 447). -/
def rb2bFirstName (d : List (String × String)) : String :=
  pyOr (dictGet d "First Name") (dictGet d "first_name")

/-- Last-name extraction (line 448). -/
def rb2bLastName (d : List (String × String)) : String :=
  pyOr (dictGet d "Last Name") (dictGet d "last_name")

/-- `full_name = f"{first_name} {last_name}".strip()` (line 449). -/
def rb2bFullName (d : List (String × String)) : String :=
  pyStrip (rb2bFirstName d ++ " " ++ rb2bLastName d)

/-- Title extraction (line 450). -/
def rb2bTitle (d : List (String × String)) : String :=
  pyOr (dictGet d "Title") (dictGet d "title")

/-- LinkedIn extraction (line 451). -/
def rb2bLinkedin (d : List (String × String)) : String :=
  pyOr (dictGet d "LinkedIn URL") (dictGet d "linkedin_url")

/-- Employer-name extraction (line 452). -/
def rb2bCompanyName (d : List (String × String)) : String :=
  pyOr (dictGet d "Company") (dictGet d "company")

/-- `domain = email.split("@")[-1] if "@" in email else ""` (line 459). -/
def emailDomain (email : String) : String :=
  let parts := pySplit email '@'
  if parts.length > 1 then parts.getLastD "" else ""

/-- Lead identifier of the RB2B pathway (line 463). -/
def rb2bLeadId (now : Nat) (email : String) : String :=
  "rb2b_" ++ toString now ++ "_" ++ pyTake ((pySplit email '@').headD "") 8

/-- The person dictionary passed to scoring and persistence (lines 482-487). -/
def rb2bPerson (d : List (String × String)) : PersonData :=
  { name := rb2bFullName d, email := rb2bEmail d, title := rb2bTitle d,
    linkedin := rb2bLinkedin d }

/-- The company shell of the RB2B pathway (line 466). -/
def rb2bShell (d : List (String × String)) : CompanyPayload :=
  { name := pyOr (rb2bCompanyName d) (emailDomain (rb2bEmail d)),
    domain := emailDomain (rb2bEmail d), industry := "Unknown",
    employee_count := 0, country := "" }

/-- Scoring of the RB2B pathway (lines 489-509): the engine runs whenever a
key is configured; a successful result gets the person-identification bonus,
anything else keeps the pathway default. -/
def rb2bScoring (settings : Settings) (openaiHttp : Option Scoring)
    (fallback : Scoring) : Scoring :=
  if settings.openai_api_key ≠ "" then
    match score_lead_openai settings.openai_api_key openaiHttp with
    | some s => applyRb2bBonus s
    | none => fallback
  else fallback

/-- `process_rb2b_lead` (lines 441-519). Returns `ret = none` on the
missing-email abort (the Python `return None`), otherwise the lead id. -/
def process_rb2b_lead (settings : Settings) (d : List (String × String))
    (now : Nat) (apolloHttp : Option CompanyPayload)
    (hunterHttp : Option (List ContactPayload)) (openaiHttp : Option Scoring)
    (alertPost : Except String Unit) (db : DB) : Except String RunOut :=
  if rb2bEmail d = "" then Except.ok ⟨db, 0, none⟩
  else
    let domain := emailDomain (rb2bEmail d)
    let lead_id := rb2bLeadId now (rb2bEmail d)
    let company := resolvedCompany (rb2bShell d) domain
      settings.apollo_api_key apolloHttp
    let contacts := resolvedContacts domain settings.hunter_api_key hunterHttp
    let person := rb2bPerson d
    let scoring := rb2bScoring settings openaiHttp
      (defaultRb2bScoring (rb2bFullName d) (rb2bFirstName d) (rb2bTitle d)
        company.name)
    match save_rb2b_lead lead_id company contacts scoring person db with
    | Except.error e => Except.error e
    | Except.ok db2 =>
      if settings.slack_webhook_url ≠ "" ∧ scoring.tier = "hot" then
        match send_slack_alert company scoring "" person
            settings.slack_webhook_url alertPost with
        | Except.error e => Except.error e
        | Except.ok _ => Except.ok ⟨db2, 1, some lead_id⟩
      else Except.ok ⟨db2, 0, some lead_id⟩

/-! ## Concrete fixtures used by counterexample evaluations and witnesses -/

/-- A fully populated Apollo enrichment payload (shape of lines 247-259). -/
def fxApolloPayload : CompanyPayload :=
  { name := "Shopify", domain := "shopify.com", industry := "SaaS",
    employee_count := 100, country := "Canada", city := some "Ottawa",
    description := some "Commerce platform", funding_stage := some "ipo",
    total_funding := some 122000000, annual_revenue := some 5000000000,
    linkedin_url := some "https://linkedin.com/company/shopify" }

/-- A second, different payload for the same domain. -/
def fxApolloPayload2 : CompanyPayload :=
  { name := "Shopify Inc", domain := "shopify.com", industry := "E-commerce",
    employee_count := 12000, country := "Canada", city := some "Toronto",
    description := some "Commerce platform v2", funding_stage := some "ipo",
    total_funding := some 122000001, annual_revenue := some 7000000000,
    linkedin_url := some "https://linkedin.com/company/shopify" }

/-- One Hunter contact. -/
def fxContact : ContactPayload :=
  { name := "Jane Doe", email := "jane@shopify.com", title := "CTO",
    department := "executive", seniority := "executive",
    linkedin_url := "", confidence := 90 }

/-- A successful engine scoring result with raw score 60. -/
def fxScore60 : Scoring :=
  { icp_score := 60, tier := "warm", match_reasons := ["industry match"],
    intent_signals := ["pricing page"], recommended_action := "send_email",
    urgency := "medium", research_summary := "Prospect summary",
    talking_points := ["point"], email_draft := [("subject", "s"), ("body", "b")] }

/-- Settings with a scoring credential and a webhook configured. -/
def fxSettingsFull : Settings :=
  { apollo_api_key := "", hunter_api_key := "", openai_api_key := "sk-test",
    ipinfo_token := "", slack_webhook_url := "https://hooks.example/T/B" }

/-- An RB2B webhook payload carrying an email. -/
def fxRb2bData : List (String × String) :=
  [("First Name", "John"), ("Last Name", "Smith"),
   ("Email", "john.smith@shopify.com"), ("Title", "VP of Marketing"),
   ("Company", "Shopify"),
   ("LinkedIn URL", "https://www.linkedin.com/in/johnsmith/")]

/-- An RB2B webhook payload whose email aliases are both empty/absent. -/
def fxRb2bNoEmail : List (String × String) :=
  [("First Name", "John"), ("Email", ""), ("Company", "Shopify")]

/-- A tracking event with a public source address. -/
def fxVisitor : VisitorData :=
  { session_id := "sess12345", ip_address := "8.8.8.8",
    referrer := "https://google.com", pages_viewed := ["/", "/pricing"],
    visit_duration := 120, user_agent := "Mozilla" }

/-- A tracking event carrying a loopback source address. -/
def fxVisitorLocal : VisitorData :=
  { session_id := "local-sess", ip_address := "127.0.0.1" }

/-- Database state after one company row and one lead linked to it: the
company row has rowid 1 and the lead references it. -/
def fxLinkedDB : DB :=
  { visitors := [], companies := [mkCompanyRow 1 fxApolloPayload],
    contacts := [mkContactRow 1 (some 1) fxContact],
    leads := [rb2bLeadRow 1 "rb2b_1_john.smi" (some 1) fxApolloPayload
      fxScore60 { name := "John Smith", email := "john.smith@shopify.com",
                  title := "VP of Marketing", linkedin := "" }],
    nextVisitorId := 1, nextCompanyId := 2, nextContactId := 2,
    nextLeadId := 2 }

/-- `save_rb2b_lead` applied to a contact list containing the same contact
twice, on a fresh database: the duplicate-contact scenario of the contact
insert-if-absent property. -/
def dupContactResult : Except String DB :=
  save_rb2b_lead "rb2b_1_jane" fxApolloPayload [fxContact, fxContact]
    fxScore60 { name := "Jane Doe", email := "jane@shopify.com",
                title := "CTO", linkedin := "" } emptyDB

/-- The database `dupContactResult` succeeds with. -/
def dupContactDB : DB :=
  match dupContactResult with
  | Except.ok db => db
  | Except.error _ => emptyDB

/-! ## Helper lemmas -/

/-- The notifier swallows any POST failure: it always completes. -/
theorem send_slack_alert_ok (company : CompanyPayload) (scoring : Scoring)
    (ip : String) (person : PersonData) (webhook : String)
    (o : Except String Unit) :
    send_slack_alert company scoring ip person webhook o = Except.ok () := by
  cases o <;> rfl

theorem insertOrReplaceCompany_leads (db : DB) (p : CompanyPayload) :
    (insertOrReplaceCompany db p).leads = db.leads := rfl

theorem insertOrReplaceCompany_visitors (db : DB) (p : CompanyPayload) :
    (insertOrReplaceCompany db p).visitors = db.visitors := rfl

theorem insertOrReplaceCompany_contacts (db : DB) (p : CompanyPayload) :
    (insertOrReplaceCompany db p).contacts = db.contacts := rfl

theorem insertOrReplaceCompany_nextLeadId (db : DB) (p : CompanyPayload) :
    (insertOrReplaceCompany db p).nextLeadId = db.nextLeadId := rfl

theorem insertOrIgnoreContact_leads (db : DB) (cid : Option Nat)
    (c : ContactPayload) : (insertOrIgnoreContact db cid c).leads = db.leads := by
  simp only [insertOrIgnoreContact]
  split <;> rfl

theorem insertOrIgnoreContact_visitors (db : DB) (cid : Option Nat)
    (c : ContactPayload) :
    (insertOrIgnoreContact db cid c).visitors = db.visitors := by
  simp only [insertOrIgnoreContact]
  split <;> rfl

theorem insertOrIgnoreContact_nextLeadId (db : DB) (cid : Option Nat)
    (c : ContactPayload) :
    (insertOrIgnoreContact db cid c).nextLeadId = db.nextLeadId := by
  simp only [insertOrIgnoreContact]
  split <;> rfl

theorem insertContacts_leads (cid : Option Nat) (cts : List ContactPayload)
    (db : DB) : (insertContacts cid cts db).leads = db.leads := by
  induction cts generalizing db with
  | nil => rfl
  | cons c cs ih =>
    simp only [insertContacts, List.foldl_cons] at *
    rw [ih, insertOrIgnoreContact_leads]

theorem insertContacts_visitors (cid : Option Nat) (cts : List ContactPayload)
    (db : DB) : (insertContacts cid cts db).visitors = db.visitors := by
  induction cts generalizing db with
  | nil => rfl
  | cons c cs ih =>
    simp only [insertContacts, List.foldl_cons] at *
    rw [ih, insertOrIgnoreContact_visitors]

theorem insertContacts_nextLeadId (cid : Option Nat)
    (cts : List ContactPayload) (db : DB) :
    (insertContacts cid cts db).nextLeadId = db.nextLeadId := by
  induction cts generalizing db with
  | nil => rfl
  | cons c cs ih =>
    simp only [insertContacts, List.foldl_cons] at *
    rw [ih, insertOrIgnoreContact_nextLeadId]

theorem companyContactsStep_leads (company : CompanyPayload)
    (cts : List ContactPayload) (db : DB) :
    (companyContactsStep company cts db).1.leads = db.leads := by
  unfold companyContactsStep
  split
  · rw [insertContacts_leads, insertOrReplaceCompany_leads]
  · rfl

theorem companyContactsStep_visitors (company : CompanyPayload)
    (cts : List ContactPayload) (db : DB) :
    (companyContactsStep company cts db).1.visitors = db.visitors := by
  unfold companyContactsStep
  split
  · rw [insertContacts_visitors, insertOrReplaceCompany_visitors]
  · rfl

theorem companyContactsStep_nextLeadId (company : CompanyPayload)
    (cts : List ContactPayload) (db : DB) :
    (companyContactsStep company cts db).1.nextLeadId = db.nextLeadId := by
  unfold companyContactsStep
  split
  · rw [insertContacts_nextLeadId, insertOrReplaceCompany_nextLeadId]
  · rfl

theorem saveLeadCore_leads (lead_id : String) (company : CompanyPayload)
    (cts : List ContactPayload) (visitor : VisitorData) (scoring : Scoring)
    (ip identified source : String) (person : PersonData) (db : DB) :
    (saveLeadCore lead_id company cts visitor scoring ip identified source
        person db).leads =
      db.leads ++ [trackingLeadRow db.nextLeadId lead_id
        (companyContactsStep company cts db).2 visitor scoring ip identified
        source person] := by
  simp only [saveLeadCore]
  rw [companyContactsStep_leads, companyContactsStep_nextLeadId]

theorem saveLeadCore_visitors (lead_id : String) (company : CompanyPayload)
    (cts : List ContactPayload) (visitor : VisitorData) (scoring : Scoring)
    (ip identified source : String) (person : PersonData) (db : DB) :
    (saveLeadCore lead_id company cts visitor scoring ip identified source
        person db).visitors = db.visitors := by
  simp only [saveLeadCore]
  rw [companyContactsStep_visitors]

theorem saveRb2bLeadCore_leads (lead_id : String) (company : CompanyPayload)
    (cts : List ContactPayload) (scoring : Scoring) (person : PersonData)
    (db : DB) :
    (saveRb2bLeadCore lead_id company cts scoring person db).leads =
      db.leads ++ [rb2bLeadRow db.nextLeadId lead_id
        (companyContactsStep company cts db).2 company scoring person] := by
  simp only [saveRb2bLeadCore]
  rw [companyContactsStep_leads, companyContactsStep_nextLeadId]

theorem save_lead_fresh (lead_id : String) (company : CompanyPayload)
    (cts : List ContactPayload) (visitor : VisitorData) (scoring : Scoring)
    (ip identified source : String) (person : PersonData) (db : DB)
    (hfresh : (db.leads.any fun r => r.lead_id == lead_id) = false) :
    save_lead lead_id company cts visitor scoring ip identified source
        person db =
      Except.ok (saveLeadCore lead_id company cts visitor scoring ip
        identified source person db) := by
  simp only [save_lead, hfresh, Bool.false_eq_true, if_false]

theorem save_lead_ok (lead_id : String) (company : CompanyPayload)
    (cts : List ContactPayload) (visitor : VisitorData) (scoring : Scoring)
    (ip identified source : String) (person : PersonData) (db db2 : DB)
    (h : save_lead lead_id company cts visitor scoring ip identified source
      person db = Except.ok db2) :
    db2 = saveLeadCore lead_id company cts visitor scoring ip identified
      source person db := by
  simp only [save_lead] at h
  split at h
  · exact absurd h (by simp)
  · injection h with h2
    exact h2.symm

theorem save_rb2b_lead_fresh (lead_id : String) (company : CompanyPayload)
    (cts : List ContactPayload) (scoring : Scoring) (person : PersonData)
    (db : DB)
    (hfresh : (db.leads.any fun r => r.lead_id == lead_id) = false) :
    save_rb2b_lead lead_id company cts scoring person db =
      Except.ok (saveRb2bLeadCore lead_id company cts scoring person db) := by
  simp only [save_rb2b_lead, hfresh, Bool.false_eq_true, if_false]

theorem save_rb2b_lead_ok (lead_id : String) (company : CompanyPayload)
    (cts : List ContactPayload) (scoring : Scoring) (person : PersonData)
    (db db2 : DB)
    (h : save_rb2b_lead lead_id company cts scoring person db =
      Except.ok db2) :
    db2 = saveRb2bLeadCore lead_id company cts scoring person db := by
  simp only [save_rb2b_lead] at h
  split at h
  · exact absurd h (by simp)
  · injection h with h2
    exact h2.symm

theorem visitorScoring_default (settings : Settings) (identified ip : String)
    (openaiHttp : Option Scoring)
    (h : settings.openai_api_key = "" ∨ openaiHttp = none) :
    visitorScoring settings identified ip openaiHttp =
      defaultTrackingScoring identified ip := by
  rcases h with h | h
  · simp [visitorScoring, h]
  · subst h
    simp only [visitorScoring, score_lead_openai, ite_self]

theorem rb2bScoring_default (settings : Settings)
    (openaiHttp : Option Scoring) (fallback : Scoring)
    (h : settings.openai_api_key = "" ∨ openaiHttp = none) :
    rb2bScoring settings openaiHttp fallback = fallback := by
  rcases h with h | h
  · simp [rb2bScoring, h]
  · subst h
    simp only [rb2bScoring, score_lead_openai, ite_self]

theorem rb2bScoring_success (settings : Settings) (s : Scoring)
    (fallback : Scoring) (hkey : settings.openai_api_key ≠ "") :
    rb2bScoring settings (some s) fallback = applyRb2bBonus s := by
  simp [rb2bScoring, score_lead_openai, hkey]

theorem applyRb2bBonus_icp_score (s : Scoring) :
    (applyRb2bBonus s).icp_score = min 100 (s.icp_score + 15) := rfl

theorem applyRb2bBonus_tier (s : Scoring) :
    (applyRb2bBonus s).tier =
      if min 100 (s.icp_score + 15) ≥ 70 then "hot"
      else if min 100 (s.icp_score + 15) ≥ 50 then "warm"
      else s.tier := rfl

theorem save_visitor_leads (visitor : VisitorData) (ip : String) (db : DB) :
    (save_visitor visitor ip db).leads = db.leads := rfl

/-! ## Claim theorems -/

/-- Claim C1: on the identified-person pathway, whenever the scoring engine
succeeds with raw result `s`, the persisted lead carries score
`min 100 (s.icp_score + 15)` and the tier re-derived from that bonused
score (at least 70 gives hot, at least 50 gives warm, below 50 the engine
tier is kept). -/
theorem rb2b_success_applies_person_bonus (settings : Settings)
    (d : List (String × String)) (now : Nat)
    (apolloHttp : Option CompanyPayload)
    (hunterHttp : Option (List ContactPayload)) (s : Scoring)
    (alertPost : Except String Unit) (db : DB)
    (hkey : settings.openai_api_key ≠ "")
    (hemail : rb2bEmail d ≠ "")
    (hfresh : (db.leads.any fun r =>
      r.lead_id == rb2bLeadId now (rb2bEmail d)) = false) :
    ∃ out : RunOut,
      process_rb2b_lead settings d now apolloHttp hunterHttp (some s)
        alertPost db = Except.ok out ∧
      ∃ l : LeadRow, out.db.leads = db.leads ++ [l] ∧
        l.icp_score = min 100 (s.icp_score + 15) ∧
        l.tier = (if min 100 (s.icp_score + 15) ≥ 70 then "hot"
                  else if min 100 (s.icp_score + 15) ≥ 50 then "warm"
                  else s.tier) ∧
        l.source = "rb2b" := by
  simp only [process_rb2b_lead, if_neg hemail,
    rb2bScoring_success _ _ _ hkey]
  rw [save_rb2b_lead_fresh _ _ _ _ _ _ hfresh]
  dsimp only
  by_cases hcond : settings.slack_webhook_url ≠ "" ∧
      (applyRb2bBonus s).tier = "hot"
  · rw [if_pos hcond, send_slack_alert_ok]
    refine ⟨_, rfl, ?_⟩
    rw [saveRb2bLeadCore_leads]
    exact ⟨_, rfl, rfl, rfl, rfl⟩
  · rw [if_neg hcond]
    refine ⟨_, rfl, ?_⟩
    rw [saveRb2bLeadCore_leads]
    exact ⟨_, rfl, rfl, rfl, rfl⟩

/-- Witness for C1: a raw engine score of 60 on the identified-person
pathway persists as `min 100 75 = 75` with tier hot. -/
theorem rb2b_success_applies_person_bonus_witness :
    ∃ out : RunOut,
      process_rb2b_lead fxSettingsFull fxRb2bData 5 none none (some fxScore60)
        (Except.ok ()) emptyDB = Except.ok out ∧
      ∃ l : LeadRow, out.db.leads = emptyDB.leads ++ [l] ∧
        l.icp_score = min 100 (fxScore60.icp_score + 15) ∧
        l.tier = (if min 100 (fxScore60.icp_score + 15) ≥ 70 then "hot"
                  else if min 100 (fxScore60.icp_score + 15) ≥ 50 then "warm"
                  else fxScore60.tier) ∧
        l.source = "rb2b" :=
  rb2b_success_applies_person_bonus fxSettingsFull fxRb2bData 5 none none
    fxScore60 (Except.ok ()) emptyDB (by decide) (by decide) (by decide)

/-- Claim C2: an identified-person event whose email aliases are absent or
empty aborts the run with the database untouched, zero alert calls, and the
`None` return. -/
theorem rb2b_missing_email_aborts (settings : Settings)
    (d : List (String × String)) (now : Nat)
    (apolloHttp : Option CompanyPayload)
    (hunterHttp : Option (List ContactPayload)) (openaiHttp : Option Scoring)
    (alertPost : Except String Unit) (db : DB) (h : rb2bEmail d = "") :
    process_rb2b_lead settings d now apolloHttp hunterHttp openaiHttp
      alertPost db = Except.ok ⟨db, 0, none⟩ := by
  simp [process_rb2b_lead, h]

/-- Witness for C2: a payload with an empty `Email` value and no `email`
key leaves the empty database unchanged. -/
theorem rb2b_missing_email_aborts_witness :
    process_rb2b_lead fxSettingsFull fxRb2bNoEmail 5 none none
      (some fxScore60) (Except.ok ()) emptyDB = Except.ok ⟨emptyDB, 0, none⟩ :=
  rb2b_missing_email_aborts fxSettingsFull fxRb2bNoEmail 5 none none
    (some fxScore60) (Except.ok ()) emptyDB (by decide)

/-- Claim C3: every completed anonymous run has written exactly the raw
visit record to the visitors store, independently of every enrichment
oracle; and a loopback/empty effective IP terminates right after that write
with no lead and no alert. -/
theorem visitor_audit_write_and_local_skip (settings : Settings)
    (visitor : VisitorData) (client_ip : String) (now : Nat)
    (ipHttp : Option IpInfoData) (apolloHttp : Option CompanyPayload)
    (hunterHttp : Option (List ContactPayload)) (openaiHttp : Option Scoring)
    (alertPost : Except String Unit) (db : DB) :
    (∀ out : RunOut,
        process_visitor settings visitor client_ip now ipHttp apolloHttp
          hunterHttp openaiHttp alertPost db = Except.ok out →
        out.db.visitors =
          (save_visitor visitor (effectiveIp visitor client_ip) db).visitors) ∧
    (isLocalIp (effectiveIp visitor client_ip) = true →
        process_visitor settings visitor client_ip now ipHttp apolloHttp
          hunterHttp openaiHttp alertPost db =
        Except.ok ⟨save_visitor visitor (effectiveIp visitor client_ip) db,
          0, none⟩) := by
  constructor
  · intro out hout
    by_cases hloc : isLocalIp (effectiveIp visitor client_ip) = true
    · simp only [process_visitor, if_pos hloc] at hout
      injection hout with h2
      subst h2
      rfl
    · simp only [process_visitor, if_neg hloc, send_slack_alert_ok] at hout
      split at hout
      · exact absurd hout (by simp)
      · rename_i db2 heq
        have hdb2 := save_lead_ok _ _ _ _ _ _ _ _ _ _ _ heq
        split at hout
        · injection hout with h2
          subst h2
          simp [hdb2, saveLeadCore_visitors]
        · injection hout with h2
          subst h2
          simp [hdb2, saveLeadCore_visitors]
  · intro hloc
    simp only [process_visitor, if_pos hloc]

/-- Witness for C3: a loopback event writes only the visitor row. -/
theorem visitor_audit_write_and_local_skip_witness :
    process_visitor fxSettingsFull fxVisitorLocal "" 7 none none none none
      (Except.ok ()) emptyDB =
      Except.ok ⟨save_visitor fxVisitorLocal
        (effectiveIp fxVisitorLocal "") emptyDB, 0, none⟩ :=
  (visitor_audit_write_and_local_skip fxSettingsFull fxVisitorLocal "" 7 none
    none none none (Except.ok ()) emptyDB).2 (by decide)

/-- Claim C4: the IP Resolver applied to an IPinfo response whose
organization string is `14061 Shopify Inc` strips the leading AS token,
keeps `Shopify Inc` as the company name, and guesses exactly the domain
`shopify.com`. -/
theorem ip_resolver_domain_guess_shopify :
    lookup_company_from_ip "8.8.8.8" ""
        (some { org := "14061 Shopify Inc", city := "Ottawa", region := "ON",
                country := "CA" }) =
      some { ip := "8.8.8.8", company_name := "Shopify Inc",
             domain := "shopify.com", city := "Ottawa", region := "ON",
             country := "CA", org := "14061 Shopify Inc" } := by decide

/-- Claim C5: with no scoring credential (or a failed engine call), the
anonymous pathway persists the default record — score 30, tier cold, action
skip, urgency low, a research summary naming the organization or IP, empty
reason/signal/talking-point lists and an empty draft — and the
identified-person pathway persists score 60, tier warm, action send_email,
urgency medium. -/
theorem default_scoring_fallbacks_persisted (settings : Settings)
    (visitor : VisitorData) (client_ip : String) (nowV : Nat)
    (ipHttp : Option IpInfoData) (apolloHttpV : Option CompanyPayload)
    (hunterHttpV : Option (List ContactPayload)) (openaiHttpV : Option Scoring)
    (alertPostV : Except String Unit) (dbV : DB)
    (d : List (String × String)) (nowR : Nat)
    (apolloHttpR : Option CompanyPayload)
    (hunterHttpR : Option (List ContactPayload)) (openaiHttpR : Option Scoring)
    (alertPostR : Except String Unit) (dbR : DB)
    (hscoreV : settings.openai_api_key = "" ∨ openaiHttpV = none)
    (hscoreR : settings.openai_api_key = "" ∨ openaiHttpR = none)
    (hloc : isLocalIp (effectiveIp visitor client_ip) = false)
    (hfreshV : (dbV.leads.any fun r =>
      r.lead_id == trackingLeadId nowV visitor.session_id) = false)
    (hemail : rb2bEmail d ≠ "")
    (hfreshR : (dbR.leads.any fun r =>
      r.lead_id == rb2bLeadId nowR (rb2bEmail d)) = false) :
    (∃ out : RunOut,
      process_visitor settings visitor client_ip nowV ipHttp apolloHttpV
        hunterHttpV openaiHttpV alertPostV dbV = Except.ok out ∧
      ∃ l : LeadRow, out.db.leads = dbV.leads ++ [l] ∧
        l.icp_score = 30 ∧ l.tier = "cold" ∧
        l.recommended_action = "skip" ∧ l.urgency = "low" ∧
        l.research_summary = "Visitor from " ++
          pyOr (visitorIdentified settings.ipinfo_token
            (effectiveIp visitor client_ip) ipHttp)
            (effectiveIp visitor client_ip) ∧
        l.match_reasons = [] ∧ l.intent_signals = [] ∧
        l.talking_points = [] ∧ l.email_draft = []) ∧
    (∃ out : RunOut,
      process_rb2b_lead settings d nowR apolloHttpR hunterHttpR openaiHttpR
        alertPostR dbR = Except.ok out ∧
      ∃ l : LeadRow, out.db.leads = dbR.leads ++ [l] ∧
        l.icp_score = 60 ∧ l.tier = "warm" ∧
        l.recommended_action = "send_email" ∧ l.urgency = "medium") := by
  constructor
  · simp only [process_visitor, hloc, Bool.false_eq_true, if_false,
      visitorScoring_default _ _ _ _ hscoreV]
    have hfreshV2 : (((save_visitor visitor (effectiveIp visitor client_ip)
        dbV).leads).any fun r =>
          r.lead_id == trackingLeadId nowV visitor.session_id) = false :=
      hfreshV
    rw [save_lead_fresh _ _ _ _ _ _ _ _ _ _ hfreshV2]
    dsimp only
    rw [if_neg (by simp [defaultTrackingScoring])]
    refine ⟨_, rfl, ?_⟩
    rw [saveLeadCore_leads]
    exact ⟨_, rfl, rfl, rfl, rfl, rfl, rfl, rfl, rfl, rfl, rfl⟩
  · simp only [process_rb2b_lead, if_neg hemail,
      rb2bScoring_default _ _ _ hscoreR]
    rw [save_rb2b_lead_fresh _ _ _ _ _ _ hfreshR]
    dsimp only
    rw [if_neg (by simp [defaultRb2bScoring])]
    refine ⟨_, rfl, ?_⟩
    rw [saveRb2bLeadCore_leads]
    exact ⟨_, rfl, rfl, rfl, rfl, rfl⟩

/-- Witness for C5: with all credentials empty, a public-IP tracking event
and an RB2B event with an email persist the two default records. -/
theorem default_scoring_fallbacks_persisted_witness :
    (∃ out : RunOut,
      process_visitor {} fxVisitor "" 7 none none none none
        (Except.ok ()) emptyDB = Except.ok out ∧
      ∃ l : LeadRow, out.db.leads = emptyDB.leads ++ [l] ∧
        l.icp_score = 30 ∧ l.tier = "cold" ∧
        l.recommended_action = "skip" ∧ l.urgency = "low" ∧
        l.research_summary = "Visitor from " ++
          pyOr (visitorIdentified "" (effectiveIp fxVisitor "") none)
            (effectiveIp fxVisitor "") ∧
        l.match_reasons = [] ∧ l.intent_signals = [] ∧
        l.talking_points = [] ∧ l.email_draft = []) ∧
    (∃ out : RunOut,
      process_rb2b_lead {} fxRb2bData 5 none none none
        (Except.ok ()) emptyDB = Except.ok out ∧
      ∃ l : LeadRow, out.db.leads = emptyDB.leads ++ [l] ∧
        l.icp_score = 60 ∧ l.tier = "warm" ∧
        l.recommended_action = "send_email" ∧ l.urgency = "medium") :=
  default_scoring_fallbacks_persisted {} fxVisitor "" 7 none none none none
    (Except.ok ()) emptyDB fxRb2bData 5 none none none (Except.ok ()) emptyDB
    (Or.inl rfl) (Or.inl rfl) (by decide) (by decide) (by decide) (by decide)

/-- Claim C6 (code evaluation): the schema gives `contacts` no uniqueness
constraint besides the autoincrement rowid, so `INSERT OR IGNORE` never
fires and submitting the same contact twice for the same company stores two
rows instead of the specified one. -/
theorem duplicate_contact_inserted_twice :
    dupContactResult = Except.ok dupContactDB ∧
    (dupContactDB.contacts.filter (fun r =>
        r.company_id == some 1 && r.name == "Jane Doe" &&
        r.email == "jane@shopify.com")).length = 2 :=
  ⟨rfl, rfl⟩

/-- Claim C7: upserting the same non-empty domain twice leaves exactly one
company row for that domain, built from the second payload alone with a
fresh rowid — last-write-wins, no field-level merge. -/
theorem company_upsert_last_write_wins (db : DB) (p1 p2 : CompanyPayload)
    (hdom : p1.domain = p2.domain) (_hne : p2.domain ≠ "") :
    (insertOrReplaceCompany (insertOrReplaceCompany db p1) p2).companies.filter
        (fun r => r.domain == p2.domain) =
      [mkCompanyRow (db.nextCompanyId + 1) p2] := by
  simp only [insertOrReplaceCompany, List.filter_append, List.filter_filter]
  simp [mkCompanyRow, hdom]

/-- Witness for C7: two different payloads for `shopify.com` on a fresh
database leave one row carrying the second payload. -/
theorem company_upsert_last_write_wins_witness :
    (insertOrReplaceCompany (insertOrReplaceCompany emptyDB fxApolloPayload)
        fxApolloPayload2).companies.filter
        (fun r => r.domain == fxApolloPayload2.domain) =
      [mkCompanyRow 2 fxApolloPayload2] :=
  company_upsert_last_write_wins emptyDB fxApolloPayload fxApolloPayload2
    (by decide) (by decide)

/-- Claim C8: per completed run, exactly one outbound alert call happens
when a webhook is configured and the persisted tier is hot, zero otherwise;
and the entire run result is independent of the webhook POST outcome (the
notifier swallows failures). -/
theorem hot_alert_once_and_failure_swallowed (settings : Settings)
    (visitor : VisitorData) (client_ip : String) (nowV : Nat)
    (ipHttp : Option IpInfoData) (apolloHttpV : Option CompanyPayload)
    (hunterHttpV : Option (List ContactPayload)) (openaiHttpV : Option Scoring)
    (dbV : DB) (d : List (String × String)) (nowR : Nat)
    (apolloHttpR : Option CompanyPayload)
    (hunterHttpR : Option (List ContactPayload)) (openaiHttpR : Option Scoring)
    (dbR : DB) (post post2 : Except String Unit) :
    (process_visitor settings visitor client_ip nowV ipHttp apolloHttpV
        hunterHttpV openaiHttpV post dbV =
      process_visitor settings visitor client_ip nowV ipHttp apolloHttpV
        hunterHttpV openaiHttpV post2 dbV) ∧
    (process_rb2b_lead settings d nowR apolloHttpR hunterHttpR openaiHttpR
        post dbR =
      process_rb2b_lead settings d nowR apolloHttpR hunterHttpR openaiHttpR
        post2 dbR) ∧
    (∀ out : RunOut,
      process_visitor settings visitor client_ip nowV ipHttp apolloHttpV
        hunterHttpV openaiHttpV post dbV = Except.ok out →
      (isLocalIp (effectiveIp visitor client_ip) = true → out.alerts = 0) ∧
      (isLocalIp (effectiveIp visitor client_ip) = false →
        ∃ l : LeadRow, out.db.leads = dbV.leads ++ [l] ∧
          out.alerts = if settings.slack_webhook_url ≠ "" ∧ l.tier = "hot"
            then 1 else 0)) ∧
    (∀ out : RunOut,
      process_rb2b_lead settings d nowR apolloHttpR hunterHttpR openaiHttpR
        post dbR = Except.ok out →
      (rb2bEmail d = "" → out.alerts = 0) ∧
      (rb2bEmail d ≠ "" →
        ∃ l : LeadRow, out.db.leads = dbR.leads ++ [l] ∧
          out.alerts = if settings.slack_webhook_url ≠ "" ∧ l.tier = "hot"
            then 1 else 0)) := by
  refine ⟨?_, ?_, ?_, ?_⟩
  · simp only [process_visitor, send_slack_alert_ok]
  · simp only [process_rb2b_lead, send_slack_alert_ok]
  · intro out hout
    constructor
    · intro hloc
      simp only [process_visitor, if_pos hloc] at hout
      injection hout with h2
      subst h2
      rfl
    · intro hloc
      simp only [process_visitor, hloc, Bool.false_eq_true, if_false,
        send_slack_alert_ok] at hout
      split at hout
      · exact absurd hout (by simp)
      · rename_i db2 heq
        have hdb2 := save_lead_ok _ _ _ _ _ _ _ _ _ _ _ heq
        split at hout
        · rename_i hcond
          injection hout with h2
          subst h2
          subst hdb2
          exact ⟨_, saveLeadCore_leads _ _ _ _ _ _ _ _ _ _,
            (if_pos hcond).symm⟩
        · rename_i hcond
          injection hout with h2
          subst h2
          subst hdb2
          exact ⟨_, saveLeadCore_leads _ _ _ _ _ _ _ _ _ _,
            (if_neg hcond).symm⟩
  · intro out hout
    constructor
    · intro hemail
      simp only [process_rb2b_lead, if_pos hemail] at hout
      injection hout with h2
      subst h2
      rfl
    · intro hemail
      simp only [process_rb2b_lead, if_neg hemail,
        send_slack_alert_ok] at hout
      split at hout
      · exact absurd hout (by simp)
      · rename_i db2 heq
        have hdb2 := save_rb2b_lead_ok _ _ _ _ _ _ _ heq
        split at hout
        · rename_i hcond
          injection hout with h2
          subst h2
          subst hdb2
          exact ⟨_, saveRb2bLeadCore_leads _ _ _ _ _ _,
            (if_pos hcond).symm⟩
        · rename_i hcond
          injection hout with h2
          subst h2
          subst hdb2
          exact ⟨_, saveRb2bLeadCore_leads _ _ _ _ _ _,
            (if_neg hcond).symm⟩

/-- Witness for C8: a concrete tracking run is unchanged when the webhook
POST raises instead of succeeding. -/
theorem hot_alert_once_and_failure_swallowed_witness :
    process_visitor fxSettingsFull fxVisitor "" 7 none none none none
      (Except.ok ()) emptyDB =
    process_visitor fxSettingsFull fxVisitor "" 7 none none none none
      (Except.error "network down") emptyDB :=
  (hot_alert_once_and_failure_swallowed fxSettingsFull fxVisitor "" 7 none
    none none none emptyDB fxRb2bData 5 none none none emptyDB
    (Except.ok ()) (Except.error "network down")).1

/-- Claim C9 (code evaluation): the company INSERT column list omits
`annual_revenue`, so an Apollo payload carrying annual revenue 5000000000
is stored with column value 0 while the full value survives only inside the
`enriched_data` blob. -/
theorem annual_revenue_not_persisted :
    (insertOrReplaceCompany emptyDB fxApolloPayload).companies =
      [mkCompanyRow 1 fxApolloPayload] ∧
    (mkCompanyRow 1 fxApolloPayload).annual_revenue = 0 ∧
    (mkCompanyRow 1 fxApolloPayload).enriched_data.annual_revenue =
      some 5000000000 :=
  ⟨rfl, rfl, rfl⟩

/-- Claim C10: re-upserting a domain deletes the old company row and
inserts a fresh-rowid replacement, leaving the leads and contacts tables
untouched, so every earlier lead linked to the replaced row now holds a
company id that no companies row carries. -/
theorem company_replace_orphans_prior_linkage (db : DB) (p : CompanyPayload)
    (r : CompanyRow)
    (hids : (db.companies.map (fun c => c.id)).Nodup)
    (hwf : ∀ c ∈ db.companies, c.id < db.nextCompanyId)
    (hr : r ∈ db.companies) (hdom : r.domain = p.domain) :
    (insertOrReplaceCompany db p).companies =
      db.companies.filter (fun c => c.domain != p.domain) ++
        [mkCompanyRow db.nextCompanyId p] ∧
    (insertOrReplaceCompany db p).leads = db.leads ∧
    (insertOrReplaceCompany db p).contacts = db.contacts ∧
    (∀ c ∈ (insertOrReplaceCompany db p).companies, c.id ≠ r.id) ∧
    (∀ l ∈ db.leads, l.company_id = some r.id →
      l ∈ (insertOrReplaceCompany db p).leads ∧
      ¬ ∃ c ∈ (insertOrReplaceCompany db p).companies, c.id = r.id) := by
  have hmain : ∀ c ∈ (insertOrReplaceCompany db p).companies, c.id ≠ r.id := by
    intro c hc
    simp only [insertOrReplaceCompany, List.mem_append, List.mem_filter,
      List.mem_singleton] at hc
    rcases hc with ⟨hcmem, hcdom⟩ | hceq
    · intro heq
      have hcr : c = r := List.inj_on_of_nodup_map hids hcmem hr heq
      rw [hcr, hdom] at hcdom
      simp at hcdom
    · intro heq
      have hlt := hwf r hr
      rw [hceq] at heq
      simp only [mkCompanyRow] at heq
      omega
  refine ⟨rfl, rfl, rfl, hmain, ?_⟩
  intro l hl _hlid
  refine ⟨hl, ?_⟩
  rintro ⟨c, hc, hceq⟩
  exact hmain c hc hceq

/-- Witness for C10: a database holding the `shopify.com` company row with
rowid 1 and a lead linked to it; after re-upserting the domain no company
row has id 1 while the lead still references it. -/
theorem company_replace_orphans_prior_linkage_witness :
    (insertOrReplaceCompany fxLinkedDB fxApolloPayload2).companies =
      fxLinkedDB.companies.filter
        (fun c => c.domain != fxApolloPayload2.domain) ++
        [mkCompanyRow fxLinkedDB.nextCompanyId fxApolloPayload2] ∧
    (insertOrReplaceCompany fxLinkedDB fxApolloPayload2).leads =
      fxLinkedDB.leads ∧
    (insertOrReplaceCompany fxLinkedDB fxApolloPayload2).contacts =
      fxLinkedDB.contacts ∧
    (∀ c ∈ (insertOrReplaceCompany fxLinkedDB fxApolloPayload2).companies,
      c.id ≠ (mkCompanyRow 1 fxApolloPayload).id) ∧
    (∀ l ∈ fxLinkedDB.leads,
      l.company_id = some (mkCompanyRow 1 fxApolloPayload).id →
      l ∈ (insertOrReplaceCompany fxLinkedDB fxApolloPayload2).leads ∧
      ¬ ∃ c ∈ (insertOrReplaceCompany fxLinkedDB fxApolloPayload2).companies,
        c.id = (mkCompanyRow 1 fxApolloPayload).id) :=
  company_replace_orphans_prior_linkage fxLinkedDB fxApolloPayload2
    (mkCompanyRow 1 fxApolloPayload) (by decide) (by decide) (by decide)
    (by decide)
